import Mathlib

/-!
Formal model of the SecureGuard browser extension's detection-and-alerting
engine (background `SecurityEngine` class), its interception pipeline, and the
content script's form-submission guard.  Machine strings are modelled as Lean
`String`/`List Char`; JS numbers that mix `Date.now()` (integer milliseconds)
with `Math.random()` (a real in `[0,1)`) are modelled as `ℚ`; JS values that
may be either a number or a string (alert ids crossing the message boundary)
are modelled by an explicit sum type `JSVal`.
-/

/-! ### A small regex engine

The engine's six sensitive-data detectors are plain JS regular expressions
built from character classes, class repetitions (`?`, `*`, `+`, `{n}`,
`{n,}`, `{n,m}`), literals and `\b` word-boundary assertions.  We model them
with a tiny AST and a greedy backtracking matcher with the same semantics as
the JS engine on these constructs: at each candidate start position the
matcher runs the pattern; a class repetition first consumes as many characters
as allowed, then gives characters back one at a time on failure of the rest
of the pattern; `String.prototype.match` with a non-global regex returns the
leftmost such match. -/

/-- JS `\w`: ASCII letters, digits and underscore (used by `\b`). -/
def isWordChar (c : Char) : Bool := c.isAlpha || c.isDigit || c = '_'

/-- JS `\s` restricted to ASCII whitespace (the source texts are ASCII). -/
def isSpaceChar (c : Char) : Bool :=
  c = ' ' || c = '\t' || c = '\n' || c = '\r' || c = '\x0b' || c = '\x0c'

/-- Regex AST: character class, concatenation, greedy class repetition with a
lower bound and an optional upper bound, and the `\b` word-boundary
assertion.  Every quantifier in the engine's six patterns applies to a single
character class, so this AST covers them exactly. -/
inductive RE where
  | cls (p : Char → Bool)
  | seq (a b : RE)
  | rep (p : Char → Bool) (lo : Nat) (hi : Option Nat)
  | wb

/-- Empty pattern (matches the empty string). -/
def reEps : RE := .rep (fun _ => false) 0 (some 0)

/-- Concatenation of a list of patterns. -/
def reCat (l : List RE) : RE := l.foldr RE.seq reEps

/-- Single literal character. -/
def chc (c : Char) : RE := .cls (fun x => x = c)

/-- Single literal character, case-insensitive (for the `/i` patterns);
the argument is given in lower case. -/
def chci (c : Char) : RE := .cls (fun x => x.toLower = c)

/-- Case-insensitive literal string (argument in lower case). -/
def litci (s : String) : RE := reCat (s.toList.map chci)

/-- Consume `n` characters, tracking the most recently consumed character
(needed by the `\b` assertion). -/
def advanceBy : Nat → Option Char → List Char → Option Char × List Char
  | 0, prev, s => (prev, s)
  | _ + 1, prev, [] => (prev, [])
  | n + 1, _, c :: rest => advanceBy n (some c) rest

/-- Length of the longest prefix whose characters all satisfy `p`. -/
def countWhile (p : Char → Bool) : List Char → Nat
  | [] => 0
  | c :: rest => if p c then countWhile p rest + 1 else 0

/-- The `\b` assertion holds when exactly one side of the current position is
a word character (string edges count as non-word). -/
def boundaryAt (prev : Option Char) (s : List Char) : Bool :=
  let pw := match prev with | some c => isWordChar c | none => false
  let nw := match s with | c :: _ => isWordChar c | [] => false
  pw != nw

/-- Greedy backtracking for a class repetition: try consuming `j` characters
(all known to satisfy the class), and on failure of the continuation retry
with one character fewer, stopping at the lower bound `lo`. -/
def tryRep (prev : Option Char) (s : List Char) (lo : Nat)
    (k : Option Char → List Char → Option (List Char)) : Nat → Option (List Char)
  | 0 =>
    let a := advanceBy 0 prev s
    k a.1 a.2
  | j + 1 =>
    let a := advanceBy (j + 1) prev s
    match k a.1 a.2 with
    | some r => some r
    | none => if lo ≤ j then tryRep prev s lo k j else none

/-- Continuation-passing matcher.  `matchCont r prev s k` attempts to match
`r` at the start of `s` (with `prev` the character just before `s`, for
`\b`), and on success calls `k` with the updated previous character and the
remaining suffix.  Returns the first success in greedy/backtracking order,
exactly as the JS engine does for these patterns. -/
def matchCont : RE → Option Char → List Char → (Option Char → List Char → Option (List Char)) → Option (List Char)
  | .cls p, _, s, k =>
    match s with
    | [] => none
    | c :: rest => if p c then k (some c) rest else none
  | .seq a b, prev, s, k => matchCont a prev s (fun pr2 s2 => matchCont b pr2 s2 k)
  | .wb, prev, s, k => if boundaryAt prev s then k prev s else none
  | .rep p lo hi, prev, s, k =>
    let avail := countWhile p s
    let maxK := match hi with | none => avail | some h => min h avail
    if lo ≤ maxK then tryRep prev s lo k maxK else none

/-- Try the pattern at each position from left to right, returning the
characters consumed by the first (leftmost) match. -/
def firstMatchAux (r : RE) (prev : Option Char) (s : List Char) : Option (List Char) :=
  match matchCont r prev s (fun _ rest => some rest) with
  | some rest => some (s.take (s.length - rest.length))
  | none =>
    match s with
    | [] => none
    | c :: rest => firstMatchAux r (some c) rest

/-- Model of JS `text.match(pattern)` for a non-global pattern: `some m` with
`m` the matched text (`matches[0]`), or `none` when there is no match. -/
def firstMatch (r : RE) (text : String) : Option String :=
  (firstMatchAux r none text.toList).map fun l => String.mk l

/-! ### The six detectors (`this.sensitivePatterns`, part_000 lines 8–15) -/

/-- Class `[\s-]`. -/
def spaceDash (c : Char) : Bool := isSpaceChar c || c = '-'

/-- Credit card: `\b\d{4}[\s-]?\d{4}[\s-]?\d{4}[\s-]?\d{4}\b`. -/
def ccRE : RE := reCat
  [.wb, .rep Char.isDigit 4 (some 4), .rep spaceDash 0 (some 1),
   .rep Char.isDigit 4 (some 4), .rep spaceDash 0 (some 1),
   .rep Char.isDigit 4 (some 4), .rep spaceDash 0 (some 1),
   .rep Char.isDigit 4 (some 4), .wb]

/-- SSN: `\b\d{3}-?\d{2}-?\d{4}\b`. -/
def ssnRE : RE := reCat
  [.wb, .rep Char.isDigit 3 (some 3), .rep (fun c => c = '-') 0 (some 1),
   .rep Char.isDigit 2 (some 2), .rep (fun c => c = '-') 0 (some 1),
   .rep Char.isDigit 4 (some 4), .wb]

/-- Class `[A-Za-z0-9._%+-]` (email local part). -/
def emailLocalChar (c : Char) : Bool :=
  c.isAlpha || c.isDigit || c = '.' || c = '_' || c = '%' || c = '+' || c = '-'

/-- Class `[A-Za-z0-9.-]` (email domain part). -/
def emailDomChar (c : Char) : Bool := c.isAlpha || c.isDigit || c = '.' || c = '-'

/-- Email: `\b[A-Za-z0-9._%+-]+@[A-Za-z0-9.-]+\.[A-Za-z]{2,}\b`. -/
def emailRE : RE := reCat
  [.wb, .rep emailLocalChar 1 none, chc '@', .rep emailDomChar 1 none,
   chc '.', .rep Char.isAlpha 2 none, .wb]

/-- IP address: `\b(?:\d{1,3}\.){3}\d{1,3}\b` (the bounded group repetition
is unrolled into three copies). -/
def ipRE : RE := reCat
  [.wb, .rep Char.isDigit 1 (some 3), chc '.', .rep Char.isDigit 1 (some 3), chc '.',
   .rep Char.isDigit 1 (some 3), chc '.', .rep Char.isDigit 1 (some 3), .wb]

/-- Password assignment: `\bpassword\s*[:=]\s*\S+` with the `/i` flag. -/
def passwordRE : RE := reCat
  [.wb, litci "password", .rep isSpaceChar 0 none, .cls (fun c => c = ':' || c = '='),
   .rep isSpaceChar 0 none, .rep (fun c => !isSpaceChar c) 1 none]

/-- API key assignment: `\bapi[_-]?key\s*[:=]\s*\S+` with the `/i` flag. -/
def apiKeyRE : RE := reCat
  [.wb, litci "api", .rep (fun c => c = '_' || c = '-') 0 (some 1), litci "key",
   .rep isSpaceChar 0 none, .cls (fun c => c = ':' || c = '='),
   .rep isSpaceChar 0 none, .rep (fun c => !isSpaceChar c) 1 none]

/-- The ordered detector list (part_000 lines 8–15). -/
def sensitivePatterns : List RE := [ccRE, ssnRE, emailRE, ipRE, passwordRE, apiKeyRE]

/-- The detector names, in detector order (part_000 line 150). -/
def patternTypes : List String :=
  ["credit_card", "ssn", "email", "ip_address", "password", "api_key"]

/-- `getPatternType` (part_000 lines 149–152): `types[index] || 'unknown'`. -/
def getPatternType (i : Nat) : String := patternTypes.getD i "unknown"

/-- A sensitive-data finding as pushed by `detectSensitiveData`: the
`pattern: pattern.toString()` field of the source is a constant string
determined by the detector index and is omitted here. -/
structure Finding where
  type : String
  value : String
deriving DecidableEq

/-- The indexed `for (const [i, pattern] of this.sensitivePatterns.entries())`
loop of `detectSensitiveData` (part_000 lines 138–147), with `i` threaded
explicitly. -/
def detectFrom (text : String) : Nat → List RE → List Finding
  | _, [] => []
  | i, p :: rest =>
    match firstMatch p text with
    | some m => { type := getPatternType i, value := m } :: detectFrom text (i + 1) rest
    | none => detectFrom text (i + 1) rest

/-- `detectSensitiveData` (part_000 lines 138–147): each detector is tried in
order against the whole text and contributes its first match, if any. -/
def detectSensitiveData (text : String) : List Finding :=
  detectFrom text 0 sensitivePatterns

/-! ### Alerts and the alert queue (`AlertStore`) -/

/-- A JS value that is either a number or a string.  Alert ids are created as
numbers (`Date.now() + Math.random()`), but ids arriving over the message
channel from the popup are DOM dataset strings; strict `!==` distinguishes
the two. -/
inductive JSVal where
  | num (q : ℚ)
  | str (s : String)
deriving DecidableEq

/-- The fields of an alert as passed to `createAlert` (before the id is
assigned).  Fields that a given alert kind does not set default to the
neutral value (JS `undefined` does not matter for any claim here). -/
structure AlertDraft where
  type : String
  severity : String
  url : String := ""
  data : List Finding := []
  header : String := ""
  timestamp : Nat := 0
  tabId : Int := 0
deriving DecidableEq

/-- An alert after `createAlert` has assigned `alert.id`. -/
structure Alert extends AlertDraft where
  id : JSVal
deriving DecidableEq

/-- `createAlert` (part_000 lines 207–219): sets
`alert.id = Date.now() + Math.random()` and pushes onto the queue.  `now` is
the integer-millisecond clock reading and `rand` the `Math.random()` draw at
the moment the call runs; the persisted `alerts` record and the badge count
are projections of the returned queue (its contents and length). -/
def createAlert (now : Nat) (rand : ℚ) (draft : AlertDraft) (queue : List Alert) : List Alert :=
  queue ++ [{ toAlertDraft := draft, id := JSVal.num ((now : ℚ) + rand) }]

/-- `clearAlert` (part_000 lines 230–234):
`this.alertQueue.filter(alert => alert.id !== id)`; the filtered queue is
re-persisted and the badge recomputed from its length. -/
def clearAlert (id : JSVal) (queue : List Alert) : List Alert :=
  queue.filter fun a => a.id ≠ id

/-! ### Settings -/

/-- The engine's `userSettings` (part_000 lines 26–31). -/
structure Settings where
  realTimeScanning : Bool
  darkWebScanning : Bool
  alertLevel : String
  autoBlock : Bool
deriving DecidableEq

/-- A partial settings object as sent by `UPDATE_SETTINGS`; absent fields are
`none`. -/
structure SettingsPatch where
  realTimeScanning : Option Bool := none
  darkWebScanning : Option Bool := none
  alertLevel : Option String := none
  autoBlock : Option Bool := none

/-- `updateSettings` (part_000 lines 236–239):
`{ ...this.userSettings, ...settings }` — fields present in the patch
override, the rest are kept; the merged struct is persisted whole. -/
def updateSettings (s : Settings) (p : SettingsPatch) : Settings :=
  { realTimeScanning := p.realTimeScanning.getD s.realTimeScanning
    darkWebScanning := p.darkWebScanning.getD s.darkWebScanning
    alertLevel := p.alertLevel.getD s.alertLevel
    autoBlock := p.autoBlock.getD s.autoBlock }

/-! ### URL reputation (`checkUrlReputation`) -/

/-- The parsed JSON body of a Safe Browsing response: `matchList` models the
body's `matches` property — `some l` when the property is present and an
array, `none` when it is absent or not an array (threat descriptors are kept
as opaque strings; `matches` is a Lean keyword, hence the renaming). -/
structure RepBody where
  matchList : Option (List String)

/-- Outcome of the single `fetch` in `checkUrlReputation`: a transport
failure (the `fetch` promise rejects), or a response with an HTTP status and
a body; `none` for the body means `res.json()` throws (unparseable body). -/
inductive RepFetch where
  | fail
  | ok (status : Nat) (body : Option RepBody)

/-- The object `checkUrlReputation` returns; each field is `none` when the
corresponding JS property is absent (`undefined`). -/
structure RepVerdict where
  malicious : Option Bool := none
  threats : Option (List String) := none
  error : Option Bool := none
deriving DecidableEq

/-- `checkUrlReputation` (part_000 lines 184–205).  Note that the source
never inspects `res.status`: any response whose body parses as JSON — 2xx or
not — produces `{ malicious, threats }`, and only a rejected `fetch` or an
unparseable body lands in the `catch`, which returns `{ error: true }`.  In
every case a value is returned; the failure is never re-thrown. -/
def checkUrlReputation (f : RepFetch) : RepVerdict :=
  match f with
  | .fail => { error := some true }
  | .ok _ none => { error := some true }
  | .ok _ (some body) =>
    { malicious := some (match body.matchList with
        | some l => decide (0 < l.length)
        | none => false),
      threats := some (body.matchList.getD []) }

/-! ### Scan coordination (`scanDataForLeaks`) -/

/-- The object returned to every `SCAN_DATA` caller. -/
structure ScanResult where
  sensitiveData : List Finding
  reputation : RepVerdict
  recommendations : List String
deriving DecidableEq

/-- `scanDataForLeaks` (part_000 lines 154–163), with the already-awaited
reputation verdict passed in.  `recommendations` starts empty; a line is
pushed when `leaks.length` is truthy, and a second line when
`reputation?.malicious` is truthy (i.e. the property is present and `true`).
No other line is ever pushed. -/
def scanDataForLeaks (data : String) (reputation : RepVerdict) : ScanResult :=
  let leaks := detectSensitiveData data
  { sensitiveData := leaks
    reputation := reputation
    recommendations :=
      (if leaks.length ≠ 0 then ["Sensitive data detected."] else []) ++
      (if reputation.malicious = some true then ["Warning: Potentially malicious site."] else []) }

/-! ### Breach check (`checkDataBreach`) -/

/-- Outcome of the `fetch` in `checkDataBreach`: transport failure, or a
response with a status and (for 200) a parsed list of breach records. -/
inductive BreachFetch where
  | fail
  | ok (status : Nat) (body : List String)

/-- The object `checkDataBreach` returns; `none` fields are absent
properties. -/
structure BreachResult where
  checked : Option Bool := none
  reason : Option String := none
  breached : Option Bool := none
  breaches : Option (List String) := none
  count : Option Nat := none
  error : Option Bool := none
  message : Option String := none
deriving DecidableEq

/-- `checkDataBreach` (part_000 lines 165–182).  The first component is the
returned value (`none` models the implicit `undefined` return when the
status is neither 200 nor 404); the second component records whether the
outbound `fetch` was performed at all.  When `darkWebScanning` is off the
function returns `{ checked: false, reason: 'Disabled' }` before reaching
the `fetch`. -/
def checkDataBreach (s : Settings) (f : BreachFetch) : Option BreachResult × Bool :=
  if !s.darkWebScanning then
    (some { checked := some false, reason := some "Disabled" }, false)
  else
    match f with
    | .fail => (some { error := some true, message := some "API error" }, true)
    | .ok status body =>
      if status = 200 then
        (some { breached := some true, breaches := some body, count := some body.length }, true)
      else if status = 404 then
        (some { breached := some false, message := some "No breaches found" }, true)
      else (none, true)

/-! ### Interception pipeline (`analyzeRequest` / `analyzeHeaders`) -/

/-- JS `String.prototype.toLowerCase` (ASCII). -/
def strToLower (s : String) : String := String.mk (s.toList.map Char.toLower)

/-- Does `pat` occur as a prefix of `hay`?  (Helper for substring search.) -/
def startsWithL : List Char → List Char → Bool
  | _, [] => true
  | [], _ => false
  | c :: cs, d :: ds => (c = d) && startsWithL cs ds

/-- Does `pat` occur as a contiguous substring of the second argument? -/
def containsSub (pat : List Char) : List Char → Bool
  | [] => startsWithL [] pat
  | c :: rest => startsWithL (c :: rest) pat || containsSub pat rest

/-- JS `hay.includes(pat)`. -/
def strIncludes (hay pat : String) : Bool := containsSub pat.toList hay.toList

/-- The header names `analyzeHeaders` looks for (part_000 line 100). -/
def suspiciousHeaders : List String := ["x-api-key", "authorization", "x-auth-token"]

/-- A request header. -/
structure Header where
  name : String
  value : String
deriving DecidableEq

/-- `analyzeHeaders` (part_000 lines 98–119): for each header whose
lowercased name contains one of the suspicious names, the header value is
classified, and a `header_leak` alert draft is created when any finding
results.  Note that this listener consults neither `realTimeScanning` nor
the whitelist: it is fired on every request. -/
def analyzeHeaders (now : Nat) (url : String) (tabId : Int) (hdrs : List Header) : List AlertDraft :=
  hdrs.filterMap fun h =>
    if suspiciousHeaders.any (fun sh => strIncludes (strToLower h.name) sh) then
      if detectSensitiveData h.value ≠ [] then
        some { type := "header_leak", severity := "medium", url := url,
               header := h.name, timestamp := now, tabId := tabId }
      else none
    else none

/-- The `details.requestBody` object: structured `formData` entries and raw
byte buffers (each raw part given as its UTF-8 decoding, the output of
`TextDecoder`). -/
structure RequestBody where
  formData : List (String × List String)
  raw : List String
deriving DecidableEq

/-- `extractFormData` (part_000 lines 121–136): concatenates
`` `${key}: ${values.join(', ')} ` `` for each form entry, then appends the
decoded raw parts. -/
def extractFormData (b : RequestBody) : String :=
  (b.formData.foldl (fun acc kv =>
    acc ++ kv.1 ++ ": " ++ String.intercalate ", " kv.2 ++ " ") "")
  ++ String.join b.raw

/-- A `details` object as delivered to `onBeforeRequest`.  `urlHost` is the
hostname produced by `new URL(details.url)`, or `none` when that constructor
throws (in which case the `catch` swallows the error). -/
structure RequestDetails where
  url : String
  urlHost : Option String
  requestBody : Option RequestBody
  tabId : Int
deriving DecidableEq

/-- `analyzeRequest` (part_000 lines 73–96): bail out when
`realTimeScanning` is off, when the URL fails to parse (caught), or when the
hostname is whitelisted; otherwise extract and classify the body, producing a
`data_transmission` alert draft exactly when findings are nonempty.  The
whitelist `Set` is modelled as a list of hostnames. -/
def analyzeRequest (s : Settings) (wl : List String) (now : Nat) (d : RequestDetails) : Option AlertDraft :=
  if !s.realTimeScanning then none
  else
    match d.urlHost with
    | none => none
    | some host =>
      if wl.contains host then none
      else
        match d.requestBody with
        | none => none
        | some body =>
          let leaks := detectSensitiveData (extractFormData body)
          if leaks ≠ [] then
            some { type := "data_transmission", severity := "high", url := d.url,
                   data := leaks, timestamp := now, tabId := d.tabId }
          else none

/-- The alerts produced for one intercepted request by the pair of listeners
(`onBeforeRequest` feeding `analyzeRequest`, `onBeforeSendHeaders` feeding
`analyzeHeaders`). -/
def interceptRequest (s : Settings) (wl : List String) (now : Nat)
    (d : RequestDetails) (hdrs : List Header) : List AlertDraft :=
  (analyzeRequest s wl now d).toList ++ analyzeHeaders now d.url d.tabId hdrs

/-! ### Content-script submission guard (content.js) -/

/-- `handleFormSubmission`'s data string (content.js lines 76–79): form
entries joined as `` `${key}: ${value}` `` separated by single spaces. -/
def formDataString (entries : List (String × String)) : String :=
  String.intercalate " " (entries.map fun kv => kv.1 ++ ": " ++ kv.2)

/-- The ways a user can end the warning modal created by
`createWarningModal` (content.js lines 295–392). -/
inductive ModalAction where
  | clickBlock
  | clickContinue
  | clickClose
  | clickBackground
deriving DecidableEq

/-- The value with which the pending decision promise is resolved for each
user action (content.js lines 364–388): `true` means block.  The `#close-btn`
handler and the background-overlay click handler both resolve `true`
("Block by default"). -/
def modalDecision : ModalAction → Bool
  | .clickBlock => true
  | .clickContinue => false
  | .clickClose => true
  | .clickBackground => true

/-- `handleFormSubmission` (content.js lines 71–97), with the engine's
already-awaited reputation verdict passed in and, when a warning is shown,
the user's eventual modal action.  Returns `true` when the native submission
is dispatched and `false` when it is cancelled
(`event.preventDefault()`/`stopPropagation()`). -/
def handleFormSubmission (entries : List (String × String)) (reputation : RepVerdict)
    (action : ModalAction) : Bool :=
  let result := scanDataForLeaks (formDataString entries) reputation
  if result.sensitiveData.length > 0 then
    !modalDecision action
  else true

/-! ### Sample inputs used by witnesses and counterexamples -/

/-- A settings object with real-time scanning disabled. -/
def offSettings : Settings :=
  { realTimeScanning := false, darkWebScanning := true, alertLevel := "medium", autoBlock := false }

/-- A settings object with dark-web scanning disabled. -/
def dwOffSettings : Settings :=
  { realTimeScanning := true, darkWebScanning := false, alertLevel := "medium", autoBlock := false }

/-- A request with a parseable URL and no body. -/
def sampleRequest : RequestDetails :=
  { url := "https://evil.example/submit", urlHost := some "evil.example",
    requestBody := none, tabId := 1 }

/-- A body-leak alert draft. -/
def draftA : AlertDraft := { type := "data_transmission", severity := "high", url := "https://a.example" }

/-- A header-leak alert draft. -/
def draftB : AlertDraft := { type := "header_leak", severity := "medium", url := "https://b.example" }

/-- An alert carrying a numeric id, as `createAlert` produces. -/
def alertA : Alert := { toAlertDraft := draftA, id := JSVal.num 42 }

/-! ### Helper lemmas about the detector loop -/

/-- The detector loop produces at most one finding per remaining detector. -/
theorem detectFrom_length (text : String) (l : List RE) : ∀ i : Nat,
    (detectFrom text i l).length ≤ l.length := by
  induction l with
  | nil => intro i; simp [detectFrom]
  | cons p rest ih =>
    intro i
    cases h : firstMatch p text <;> simp [detectFrom, h]
    · exact le_trans (ih (i + 1)) (Nat.le_succ _)
    · exact ih (i + 1)

/-- Every finding produced by the detector loop is the first match of the
detector at its index, labelled with that detector's type name. -/
theorem detectFrom_mem (text : String) (l : List RE) : ∀ (i : Nat) (f : Finding),
    f ∈ detectFrom text i l →
    ∃ j, j < l.length ∧ f.type = getPatternType (i + j)
      ∧ firstMatch (l.getD j reEps) text = some f.value := by
  induction l with
  | nil => intro i f h; simp [detectFrom] at h
  | cons p rest ih =>
    intro i f h
    cases hm : firstMatch p text with
    | some m =>
      rw [detectFrom, hm] at h
      rcases List.mem_cons.mp h with h | h
      · exact ⟨0, Nat.succ_pos _, by simp [h], by simp [h, hm]⟩
      · rcases ih (i + 1) f h with ⟨j, hj, ht, hf⟩
        exact ⟨j + 1, Nat.succ_lt_succ hj, by rw [ht]; congr 1; omega, by simpa using hf⟩
    | none =>
      rw [detectFrom, hm] at h
      rcases ih (i + 1) f h with ⟨j, hj, ht, hf⟩
      exact ⟨j + 1, Nat.succ_lt_succ hj, by rw [ht]; congr 1; omega, by simpa using hf⟩

/-! ### Claim C1 -/

/-- Claim C1: for every guarded form submission whose scan result contains at
least one finding, dismissing the warning modal without an explicit choice
(the close button or the background overlay) resolves the pending decision
to block: `handleFormSubmission` cancels the submission, which is never
dispatched. -/
theorem modal_dismiss_blocks (entries : List (String × String)) (rep : RepVerdict)
    (action : ModalAction)
    (hfind : (scanDataForLeaks (formDataString entries) rep).sensitiveData ≠ [])
    (hact : action = ModalAction.clickClose ∨ action = ModalAction.clickBackground) :
    handleFormSubmission entries rep action = false := by
  have hpos : 0 < (scanDataForLeaks (formDataString entries) rep).sensitiveData.length :=
    List.length_pos.mpr hfind
  unfold handleFormSubmission
  rcases hact with h | h <;> subst h <;> simp [hpos, modalDecision]

/-- Witness for C1: submitting the single form field `password = hunter2`
yields a finding, and closing the modal cancels the submission. -/
theorem modal_dismiss_blocks_witness :
    (scanDataForLeaks (formDataString [("password", "hunter2")]) { }).sensitiveData ≠ []
    ∧ handleFormSubmission [("password", "hunter2")] { } ModalAction.clickClose = false :=
  ⟨by decide, modal_dismiss_blocks [("password", "hunter2")] { } ModalAction.clickClose
    (by decide) (Or.inl rfl)⟩

/-! ### Claim C2 -/

/-- Claim C2 counterexample: the claim says that with `realTimeScanning` off
no intercepted request — "body and headers alike" — creates an alert.  But
`analyzeHeaders` consults neither the setting nor the whitelist: with
real-time scanning disabled, a request carrying a suspicious header whose
value is API-key-shaped still produces one `header_leak` alert. -/
theorem interception_not_gated_for_headers :
    offSettings.realTimeScanning = false
    ∧ (interceptRequest offSettings [] 0 sampleRequest
        [{ name := "X-Api-Key", value := "api_key=secret123" }]).length = 1 :=
  ⟨rfl, by decide⟩

/-- Claim C2 amended: for every intercepted request BODY, if
`realTimeScanning` is off or the request URL's hostname is whitelisted (or
the URL fails to parse), `analyzeRequest` creates no alert and performs no
further action on the request; header analysis is not gated by either
condition. -/
theorem analyzeRequest_gated (s : Settings) (wl : List String) (now : Nat) (d : RequestDetails)
    (h : s.realTimeScanning = false ∨ ∃ host, d.urlHost = some host ∧ wl.contains host) :
    analyzeRequest s wl now d = none := by
  unfold analyzeRequest
  rcases h with h | ⟨host, hh, hw⟩
  · simp [h]
  · have hw2 : host ∈ wl := by simpa using hw
    cases hr : s.realTimeScanning <;> simp [hr, hh, hw2]

/-- Witness for the amended C2: with real-time scanning off, the body
listener produces nothing. -/
theorem analyzeRequest_gated_witness :
    offSettings.realTimeScanning = false
    ∧ analyzeRequest offSettings [] 0 sampleRequest = none :=
  ⟨rfl, analyzeRequest_gated offSettings [] 0 sampleRequest (Or.inl rfl)⟩

/-! ### Claim C3 -/

/-- Claim C3 (code defect): ids are `Date.now() + Math.random()`, so two
`createAlert` calls that run in the same millisecond with equal
`Math.random()` draws assign the SAME id to both alerts — the persisted
queue still has length 2, but the ids are not pairwise distinct, violating
the uniqueness invariant the spec states (and the spec itself flags
wall-clock id generation as a defect to fix). -/
theorem createAlert_id_collision :
    ((createAlert 1700000000000 (1/2) draftB
        (createAlert 1700000000000 (1/2) draftA [])).length = 2)
    ∧ ¬ ((createAlert 1700000000000 (1/2) draftB
        (createAlert 1700000000000 (1/2) draftA [])).map (fun a => a.id)).Nodup :=
  ⟨rfl, by simp [createAlert]⟩

/-! ### Claim C4 -/

/-- Claim C4: classification evaluates the six detectors in the fixed order
credit card, SSN, email, IP address, password-assignment,
API-key-assignment (the model is a pure function, so the order and result
are identical across calls); each detector contributes at most one finding —
the first match only — so the output has at most six findings, the sequence
of finding types is a subsequence of the priority-ordered detector-name
list, and every finding is the first match of the detector at its
priority index. -/
theorem detect_priority_order (text : String) :
    (detectSensitiveData text).length ≤ 6
    ∧ ((detectSensitiveData text).map Finding.type).Sublist patternTypes
    ∧ ∀ f ∈ detectSensitiveData text, ∃ j, j < 6 ∧ f.type = getPatternType j
        ∧ firstMatch (sensitivePatterns.getD j reEps) text = some f.value := by
  refine ⟨detectFrom_length text sensitivePatterns 0, ?_, ?_⟩
  · unfold detectSensitiveData sensitivePatterns
    cases h0 : firstMatch ccRE text <;> cases h1 : firstMatch ssnRE text <;>
      cases h2 : firstMatch emailRE text <;> cases h3 : firstMatch ipRE text <;>
      cases h4 : firstMatch passwordRE text <;> cases h5 : firstMatch apiKeyRE text <;>
      simp [detectFrom, h0, h1, h2, h3, h4, h5, patternTypes, getPatternType] <;> decide
  · intro f hf
    rcases detectFrom_mem text sensitivePatterns 0 f hf with ⟨j, hj, ht, hm⟩
    exact ⟨j, hj, by simpa using ht, hm⟩

/-! ### Claim C5 -/

/-- Claim C5 counterexample: the claim says the recommendations fall back to
a generic caution line when there are no findings and the verdict is not
malicious, so they would never be empty.  In fact `scanDataForLeaks` pushes
no such line: an empty payload with a clean reputation verdict (here the
verdict really produced by `checkUrlReputation` for a 200 response with an
empty `matches` array) yields an EMPTY recommendations list. -/
theorem scan_no_fallback_recommendation :
    (scanDataForLeaks ""
      (checkUrlReputation (RepFetch.ok 200 (some { matchList := some [] })))).recommendations
      = [] := by
  decide

/-- Claim C5 amended: the assembled recommendations contain one line when
the findings list is nonempty and one line when the reputation verdict is
malicious; when neither condition holds the recommendations sequence is
EMPTY — the generic caution line is supplied by the warning-modal UI when it
renders an empty list, not by the scan. -/
theorem scan_recommendations_spec (data : String) (rep : RepVerdict) :
    (detectSensitiveData data ≠ [] →
      "Sensitive data detected." ∈ (scanDataForLeaks data rep).recommendations)
    ∧ (rep.malicious = some true →
      "Warning: Potentially malicious site." ∈ (scanDataForLeaks data rep).recommendations)
    ∧ (detectSensitiveData data = [] → rep.malicious ≠ some true →
      (scanDataForLeaks data rep).recommendations = []) := by
  refine ⟨?_, ?_, ?_⟩
  · intro h
    have hne : (detectSensitiveData data).length ≠ 0 := by
      simpa [List.length_eq_zero] using h
    simp [scanDataForLeaks, hne]
  · intro h
    simp [scanDataForLeaks, h]
  · intro h1 h2
    simp [scanDataForLeaks, h1, h2]

/-- Witness for the amended C5: an IP-address payload produces the
sensitive-data recommendation line. -/
theorem scan_recommendations_spec_witness :
    detectSensitiveData "10.0.0.1" ≠ []
    ∧ "Sensitive data detected." ∈ (scanDataForLeaks "10.0.0.1" { }).recommendations :=
  ⟨by decide, (scan_recommendations_spec "10.0.0.1" { }).1 (by decide)⟩

/-! ### Claim C6 -/

/-- Claim C6 counterexample: the claim says a non-2xx response yields
`malicious = false` TOGETHER WITH an error marker.  `checkUrlReputation`
never inspects `res.status`: a 500 response whose body parses as JSON (with
an empty `matches` array) produces an ordinary verdict with NO error
marker. -/
theorem checkUrlReputation_non2xx_no_error_marker :
    (checkUrlReputation (RepFetch.ok 500 (some { matchList := some [] }))).error = none
    ∧ (checkUrlReputation (RepFetch.ok 500 (some { matchList := some [] }))).malicious
        = some false :=
  ⟨rfl, rfl⟩

/-- Claim C6 amended: when the lookup suffers a transport failure or the
response body fails to parse as JSON, `checkUrlReputation` returns
`{ error: true }` with no `malicious` field (absent, hence treated as not
malicious by every consumer) and never propagates the failure — the model is
a total function, every fetch outcome yields a verdict.  The HTTP status is
never inspected, so non-2xx responses with parseable bodies produce normal
verdicts without an error marker. -/
theorem checkUrlReputation_failure_soft (f : RepFetch)
    (h : f = RepFetch.fail ∨ ∃ st, f = RepFetch.ok st none) :
    (checkUrlReputation f).error = some true
    ∧ (checkUrlReputation f).malicious = none := by
  rcases h with h | ⟨st, h⟩ <;> subst h <;> exact ⟨rfl, rfl⟩

/-- Witness for the amended C6: a transport failure produces the error
marker and no malicious field. -/
theorem checkUrlReputation_failure_soft_witness :
    (checkUrlReputation RepFetch.fail).error = some true
    ∧ (checkUrlReputation RepFetch.fail).malicious = none :=
  checkUrlReputation_failure_soft RepFetch.fail (Or.inl rfl)

/-! ### Claim C7 -/

/-- Claim C7: dismissing an id absent from the queue is a no-op (the queue
is returned unchanged, and the model is a total function — no error); for
any id, exactly the alerts with that id are removed (no surviving alert
carries it, and every alert with a different id survives) and the relative
order of the remaining alerts is preserved (the result is a sublist of the
original queue). -/
theorem clearAlert_spec (id : JSVal) (q : List Alert) :
    ((∀ a ∈ q, a.id ≠ id) → clearAlert id q = q)
    ∧ (∀ a ∈ clearAlert id q, a.id ≠ id)
    ∧ (clearAlert id q).Sublist q
    ∧ (∀ a ∈ q, a.id ≠ id → a ∈ clearAlert id q) := by
  refine ⟨?_, ?_, ?_, ?_⟩
  · intro h
    exact List.filter_eq_self.mpr fun a ha => by simpa using h a ha
  · intro a ha
    simpa using (List.mem_filter.mp ha).2
  · exact List.filter_sublist q
  · intro a ha hne
    exact List.mem_filter.mpr ⟨ha, by simpa using hne⟩

/-- Witness for C7: dismissing the absent id 7 from a one-alert queue leaves
the queue unchanged. -/
theorem clearAlert_spec_witness :
    (∀ a ∈ [alertA], a.id ≠ JSVal.num 7)
    ∧ clearAlert (JSVal.num 7) [alertA] = [alertA] :=
  ⟨by decide, (clearAlert_spec (JSVal.num 7) [alertA]).1 (by decide)⟩

/-! ### Claim C8 -/

/-- Claim C8: when `darkWebScanning` is false, the breach check returns
`{ checked: false, reason: 'Disabled' }` — not an error (the `error` field
is absent) — and performs no outbound fetch, whatever the email (the email
only forms the request URL inside the fetch, which never happens) and
whatever the network would have answered. -/
theorem checkDataBreach_disabled (s : Settings) (f : BreachFetch)
    (h : s.darkWebScanning = false) :
    (checkDataBreach s f).2 = false
    ∧ (checkDataBreach s f).1 = some { checked := some false, reason := some "Disabled" } := by
  refine ⟨?_, ?_⟩ <;> simp [checkDataBreach, h]

/-- Witness for C8: with dark-web scanning off, even a failing network is
never consulted. -/
theorem checkDataBreach_disabled_witness :
    dwOffSettings.darkWebScanning = false
    ∧ (checkDataBreach dwOffSettings BreachFetch.fail).2 = false :=
  ⟨rfl, (checkDataBreach_disabled dwOffSettings BreachFetch.fail rfl).1⟩

/-! ### Claim C9 -/

/-- Claim C9: for every text containing a well-formed email address (the
email detector — which is exactly the `local@domain.tld` shape — matches)
and no substring matching any of the other five detectors, classification
returns exactly one finding, of category email, carrying the matched
address. -/
theorem classify_email_only (text m : String)
    (hmail : firstMatch emailRE text = some m)
    (hcc : firstMatch ccRE text = none)
    (hssn : firstMatch ssnRE text = none)
    (hip : firstMatch ipRE text = none)
    (hpw : firstMatch passwordRE text = none)
    (hapi : firstMatch apiKeyRE text = none) :
    detectSensitiveData text = [{ type := "email", value := m }] := by
  unfold detectSensitiveData sensitivePatterns
  simp [detectFrom, hmail, hcc, hssn, hip, hpw, hapi, getPatternType, patternTypes]

/-- Witness for C9: the text `a@b.co` matches the email detector alone and
classifies to the single email finding. -/
theorem classify_email_only_witness :
    firstMatch emailRE "a@b.co" = some "a@b.co"
    ∧ detectSensitiveData "a@b.co" = [{ type := "email", value := "a@b.co" }] :=
  ⟨by decide, classify_email_only "a@b.co" "a@b.co" (by decide) (by decide) (by decide)
    (by decide) (by decide) (by decide)⟩

/-! ### Claim C10 -/

/-- Claim C10: `createAlert` assigns numeric ids while `clearAlert` removes
by strict `!==`, so for every queue whose ids are all numbers and every
string id argument (as delivered by the popup's dismiss button, which sends
the DOM dataset string over `CLEAR_ALERT`), `clearAlert` leaves the queue
unchanged — dismissal through the message interface never removes the alert
from the engine's queue. -/
theorem clearAlert_string_id_noop (q : List Alert) (s : String)
    (h : ∀ a ∈ q, ∃ x, a.id = JSVal.num x) :
    clearAlert (JSVal.str s) q = q := by
  apply List.filter_eq_self.mpr
  intro a ha
  rcases h a ha with ⟨x, hx⟩
  simp [hx]

/-- Witness for C10: the stringified id of the queue's own alert fails to
dismiss it. -/
theorem clearAlert_string_id_noop_witness :
    (∀ a ∈ [alertA], ∃ x, a.id = JSVal.num x)
    ∧ clearAlert (JSVal.str "42") [alertA] = [alertA] :=
  ⟨fun a ha => ⟨42, by rw [List.mem_singleton.mp ha]; rfl⟩,
   clearAlert_string_id_noop [alertA] "42"
     (fun a ha => ⟨42, by rw [List.mem_singleton.mp ha]; rfl⟩)⟩
